import Mathlib

/-!
Verification development for the project-management-plan generator
(`app.py`).  The pure core of the application is embedded shallowly:

* the label-scoring helpers `p_label_to_score` / `i_label_to_score`,
* the suggestion engine `suggest_objectives` / `suggest_risks`,
* the plan data model (`PlanModel` and its row records),
* the Markdown renderer `plan_markdown` (modelled at line granularity), and
* the DOCX renderer `plan_docx` (modelled as a list of abstract document
  items: paragraphs, headings, bullets and tables).

Library calls are modelled by their observable content:
`pandas.DataFrame.to_markdown` is modelled as a pipe table (one header
line, one separator line, one line per data row; the column padding and
alignment colons that `to_markdown` adds are abstracted away), and
`DataFrame.sort_values(..., ascending=False)` is modelled after pandas'
`nargsort`: reverse the rows, apply an ascending argsort, reverse the
result.  The embedding uses a stable insertion sort for the argsort;
that is exact for risk registers below 16 rows (numpy's default introsort
insertion-sorts such partitions) but numpy reorders tied keys on larger
inputs, so for 16-row-or-larger registers only facts that are invariant
under which score-respecting permutation the sort returns carry over to
the program — see the C1 theorem, which treats the tie-break behaviour on
large registers as a defect of the code against its specification.
Character formatting in the DOCX output (bold runs, font sizes,
alignment) is abstracted away; the runs of a paragraph are concatenated
into its text.
-/

/-- Python `mapping.get(label, 2)` with `mapping = {"Low": 1, "Medium": 2, "High": 3}`
(`p_label_to_score` in `app.py`). -/
def p_label_to_score (label : String) : Nat :=
  if label = "Low" then 1
  else if label = "Medium" then 2
  else if label = "High" then 3
  else 2

/-- Identical mapping used for impact labels (`i_label_to_score` in `app.py`). -/
def i_label_to_score (label : String) : Nat :=
  if label = "Low" then 1
  else if label = "Medium" then 2
  else if label = "High" then 3
  else 2

/-- Python `s.strip()`: drop leading and trailing whitespace.  (Modelled
directly on the character list; `String.trim` has the same meaning but its
`Substring`-based implementation does not reduce inside the kernel.) -/
def pyStrip (s : String) : String :=
  String.mk (((s.data.dropWhile Char.isWhitespace).reverse.dropWhile
    Char.isWhitespace).reverse)

/-- Python `" ".join(drivers)`. -/
def joinSpace (drivers : List String) : String :=
  String.intercalate " " drivers

/-- The characters of `" ".join(drivers).lower()`, the text the keyword
triggers of `suggest_objectives` are scanned over.  Python `str.lower` is
modelled as a character-wise `Char.toLower`. -/
def driversBlob (drivers : List String) : List Char :=
  (joinSpace drivers).data.map Char.toLower

/-- Python `kw in " ".join(drivers).lower()`: substring containment. -/
def hasKw (kw : String) (drivers : List String) : Prop :=
  kw.toList <:+: driversBlob drivers

instance (kw : String) (drivers : List String) : Decidable (hasKw kw drivers) :=
  List.decidableInfix kw.toList (driversBlob drivers)

/-- `suggest_objectives` from `app.py`: empty unless the outcome is
non-blank; then the outcome restatement, the KPI prompt, a
methodology-dependent delivery line, and one optional line per keyword
trigger, in this fixed order. -/
def suggest_objectives (outcome methodology : String) (drivers : List String) :
    List String :=
  if pyStrip outcome = "" then []
  else
    ["Deliver the defined outcome: " ++ pyStrip outcome,
     "Define measurable KPIs and acceptance criteria aligned to business value",
     (if methodology = "Agile" then
        "Deliver scope in agreed increments with clear Definition of Done"
      else
        "Deliver scope by phase with approved entry/exit criteria")]
    ++ (if hasKw "risk" drivers then
          ["Reduce high-priority delivery risks with proactive mitigations and fast feedback"]
        else [])
    ++ (if hasKw "cost" drivers ∨ hasKw "budget" drivers then
          ["Control total cost within the approved budget envelope"]
        else [])
    ++ (if hasKw "speed" drivers ∨ hasKw "time" drivers then
          ["Meet or accelerate the target timeline through critical path focus"]
        else [])
    ++ (if hasKw "quality" drivers then
          ["Achieve quality targets measured by defect rates and user satisfaction"]
        else [])
    ++ (if hasKw "compliance" drivers then
          ["Comply with applicable regulatory and policy requirements with evidence"]
        else [])

/-- `BASE_RISKS["Common"]`. -/
def commonRisks : List String :=
  ["Scope creep due to unclear requirements or stakeholder changes",
   "Resource constraints or key person dependency",
   "Vendor or third-party delays impacting critical path",
   "Integration complexity leads to unexpected defects",
   "Data privacy/security and compliance gaps",
   "Stakeholder misalignment on priorities and success criteria",
   "Underestimated effort causing schedule slippage",
   "Budget overrun due to change or market costs",
   "Insufficient change management causes poor adoption",
   "Environment or infrastructure readiness delays"]

/-- `BASE_RISKS["Information Technology / Software"]`. -/
def itSoftwareRisks : List String :=
  ["Requirements churn due to evolving business needs",
   "Technical debt or legacy constraints impacting velocity",
   "Performance/scalability issues discovered late",
   "Environment instability or CI/CD pipeline failures"]

/-- `BASE_RISKS["Infrastructure / Construction"]`. -/
def infraRisks : List String :=
  ["Permitting/approvals delays impact start dates",
   "Site conditions differ from surveys impacting design/cost",
   "Weather events disrupt critical path activities",
   "Safety incidents cause stoppages"]

/-- `BASE_RISKS["Healthcare"]`. -/
def healthcareRisks : List String :=
  ["Privacy and clinical safety requirements cause rework",
   "Clinical workflow change resistance limits adoption",
   "Interoperability challenges with EMR/EHR systems"]

/-- `BASE_RISKS["Financial Services"]`. -/
def finServRisks : List String :=
  ["Regulatory change introduces additional controls",
   "Audit findings drive unplanned remediation",
   "Compliance approval cycle extends timelines"]

/-- `BASE_RISKS["Government / Public Sector"]`. -/
def govSectorRisks : List String :=
  ["Procurement timelines extend beyond forecast",
   "Policy changes alter project objectives",
   "Public scrutiny/media require additional assurance"]

/-- `BASE_RISKS["Education"]`. -/
def eduRisks : List String :=
  ["Academic calendar constraints limit deployment windows",
   "Stakeholder availability limited outside terms",
   "Digital accessibility requirements add scope"]

/-- Python `industry in BASE_RISKS` / `BASE_RISKS[industry]`, covering every
key of the `BASE_RISKS` dictionary (including `"Common"`). -/
def baseRisksLookup (k : String) : Option (List String) :=
  if k = "Common" then some commonRisks
  else if k = "Information Technology / Software" then some itSoftwareRisks
  else if k = "Infrastructure / Construction" then some infraRisks
  else if k = "Healthcare" then some healthcareRisks
  else if k = "Financial Services" then some finServRisks
  else if k = "Government / Public Sector" then some govSectorRisks
  else if k = "Education" then some eduRisks
  else none

/-- The two risk statements appended by the three-way methodology switch in
`suggest_risks`. -/
def methodologyRisks (methodology : String) : List String :=
  if methodology = "Agile" then
    ["Backlog not sufficiently refined causing sprint spillover",
     "Team velocity variability reduces predictability"]
  else if methodology = "Waterfall" then
    ["Late-stage integration exposes significant defects",
     "Change control process causes delays on critical path"]
  else
    ["Hybrid governance causes ambiguity in decision rights",
     "Phase gates misaligned with agile increments"]

/-- The order-preserving deduplication loop at the end of `suggest_risks`
(`seen` set plus `deduped` accumulator). -/
def dedupAux : List String → List String → List String
  | _, [] => []
  | seen, r :: rest =>
    if r ∈ seen then dedupAux seen rest
    else r :: dedupAux (r :: seen) rest

/-- `suggest_risks` from `app.py`: common catalog, optional industry catalog,
methodology pair, then order-preserving dedup. -/
def suggest_risks (industry methodology : String) : List String :=
  dedupAux []
    (commonRisks
      ++ (match baseRisksLookup industry with
          | some l => l
          | none => [])
      ++ methodologyRisks methodology)

/-- Written from the claim wording of C3 (not from the source): the
industry-specific entries contributed for an industry that has a dedicated
catalog, and nothing for `"Other"` or any unrecognized industry.  Used only
as the reference value that `suggest_risks` is compared against. -/
def specIndustryRisks (industry : String) : List String :=
  if industry = "Information Technology / Software" then itSoftwareRisks
  else if industry = "Infrastructure / Construction" then infraRisks
  else if industry = "Healthcare" then healthcareRisks
  else if industry = "Financial Services" then finServRisks
  else if industry = "Government / Public Sector" then govSectorRisks
  else if industry = "Education" then eduRisks
  else []

lemma dedupAux_of_nodup :
    ∀ (l seen : List String), l.Nodup → (∀ x ∈ l, x ∉ seen) →
      dedupAux seen l = l := by
  intro l
  induction l with
  | nil => intro seen _ _; rfl
  | cons r rest ih =>
    intro seen hnd hdisj
    have hr : r ∉ seen := hdisj r (List.mem_cons_self r rest)
    rw [dedupAux, if_neg hr]
    have hnd' : rest.Nodup := (List.nodup_cons.mp hnd).2
    have hr' : r ∉ rest := (List.nodup_cons.mp hnd).1
    have hdisj' : ∀ x ∈ rest, x ∉ r :: seen := by
      intro x hx
      simp only [List.mem_cons, not_or]
      constructor
      · intro hxr; exact hr' (hxr ▸ hx)
      · exact hdisj x (List.mem_cons_of_mem r hx)
    rw [ih (r :: seen) hnd' hdisj']

lemma baseRisksLookup_branch (k : String) :
    (match baseRisksLookup k with
      | some l => l
      | none => []) =
      (if k = "Common" then commonRisks else specIndustryRisks k) := by
  unfold baseRisksLookup specIndustryRisks
  split_ifs <;> rfl

lemma suggest_risks_eq (industry methodology : String) :
    suggest_risks industry methodology =
      commonRisks ++ specIndustryRisks industry ++ methodologyRisks methodology := by
  unfold suggest_risks
  rw [baseRisksLookup_branch]
  by_cases hC : industry = "Common"
  · -- the common catalog occurs twice and the second copy is removed by
    -- the dedup pass
    rw [if_pos hC, hC]
    have hspec : specIndustryRisks "Common" = [] := by decide
    rw [hspec]
    unfold methodologyRisks
    split_ifs <;> decide
  · rw [if_neg hC]
    apply dedupAux_of_nodup
    · unfold specIndustryRisks methodologyRisks
      split_ifs <;> decide
    · simp

/-- C3: `suggest_risks` always returns the 10 common entries first in
catalog order, then the dedicated industry catalog (nothing for `"Other"`
or any unrecognized industry), then exactly the 2 statements of the
methodology switch, with no duplicate strings; in particular
`suggest_risks "Healthcare" "Waterfall"` has length 15. -/
theorem suggest_risks_shape :
    (∀ industry methodology : String,
      suggest_risks industry methodology =
        commonRisks ++ specIndustryRisks industry ++ methodologyRisks methodology
      ∧ (suggest_risks industry methodology).Nodup
      ∧ (suggest_risks industry methodology).take 10 = commonRisks)
    ∧ (suggest_risks "Healthcare" "Waterfall").length = 15 := by
  constructor
  · intro industry methodology
    have heq := suggest_risks_eq industry methodology
    refine ⟨heq, ?_, ?_⟩
    · rw [heq]
      unfold specIndustryRisks methodologyRisks
      split_ifs <;> decide
    · rw [heq, List.append_assoc]
      exact List.take_left' (by decide)
  · decide

/-- A row of the governance-roles table (`Role` / `Name` / `Decision Rights`
record of `model["governance_roles"]`). -/
structure GovRole where
  Role : String
  Name : String
  DecisionRights : String
deriving DecidableEq

/-- A RACI row (`Item` / `R` / `A` / `C` / `I` record of `model["raci_rows"]`). -/
structure RaciRow where
  Item : String
  R : String
  A : String
  C : String
  I : String
deriving DecidableEq

/-- A risk-register row (record of `model["risks"]`). -/
structure RiskRow where
  Risk : String
  Probability : String
  Impact : String
  Mitigation : String
  Owner : String
deriving DecidableEq

/-- A milestone row (record of `model["milestones"]`; the date is carried
as its rendered string, both renderers only ever display it as text). -/
structure MilestoneRow where
  Milestone : String
  Date : String
  AcceptanceCriteria : String
deriving DecidableEq

/-- A stakeholder-communications row (record of `model["comms"]`). -/
structure CommRow where
  Stakeholder : String
  InformationNeeds : String
  Channel : String
  Frequency : String
  Owner : String
deriving DecidableEq

/-- The plan model dictionary assembled in the Review & Export tab of
`app.py` and passed to both renderers.  The `drivers` field is omitted:
neither renderer reads it. -/
structure PlanModel where
  outcome : String
  methodology : String
  industry : String
  risk_appetite : String
  objectives : List String
  scope_summary : String
  governance_roles : List GovRole
  gov_cadence : String
  gov_escalation : String
  include_raci : Bool
  raci_rows : List RaciRow
  risks : List RiskRow
  milestones : List MilestoneRow
  comms : List CommRow
  success_measures : List String
deriving DecidableEq

/-- `RiskScore = ProbabilityScore * ImpactScore` as computed by both
renderers before sorting. -/
def riskScore (r : RiskRow) : Nat :=
  p_label_to_score r.Probability * i_label_to_score r.Impact

/-- The ascending comparison on risk scores used by the sort. -/
def riskLE (a b : RiskRow) : Prop :=
  riskScore a ≤ riskScore b

instance : DecidableRel riskLE := fun a b => Nat.decLe (riskScore a) (riskScore b)

instance : IsTotal RiskRow riskLE :=
  ⟨fun a b => Nat.le_total (riskScore a) (riskScore b)⟩

instance : IsTrans RiskRow riskLE :=
  ⟨fun _ _ _ hab hbc => Nat.le_trans hab hbc⟩

/-- `df.sort_values("RiskScore", ascending=False)` with the default
`kind="quicksort"`, following pandas' `nargsort`: reverse the rows, run an
ascending argsort, reverse the result.  The argsort is modelled as a
stable insertion sort, which is exact for registers below 16 rows (numpy's
introsort insertion-sorts partitions below that size) and idealized above:
there numpy's quicksort partition swaps reorder tied keys, so for larger
registers only the ordering by score and the row multiset — facts
invariant under which score-respecting permutation is produced — reflect
the program, not the tie order. -/
def sortRisksDesc (l : List RiskRow) : List RiskRow :=
  (List.insertionSort riskLE l.reverse).reverse

/-- The five displayed cells of a risk row, in the column order selected by
both renderers. -/
def riskCells (r : RiskRow) : List String :=
  [r.Risk, r.Probability, r.Impact, r.Mitigation, r.Owner]

/-- One pipe-table line: `"| a | b | c |"`.  The hand-written RACI rows in
`plan_markdown` have exactly this shape; for the `DataFrame.to_markdown`
tables it abstracts the column padding away while keeping every cell. -/
def mdRow (cells : List String) : String :=
  "| " ++ String.intercalate " | " cells ++ " |"

/-- The separator line under a pipe-table header with `n` columns. -/
def mdSep (n : Nat) : String :=
  "|" ++ String.intercalate "|" (List.replicate n "---") ++ "|"

/-- A full pipe table: header line, separator line, one line per row. -/
def mdTableLines (header : List String) (rows : List (List String)) : List String :=
  mdRow header :: mdSep header.length :: rows.map mdRow

/-- Python `enumerate(xs, i)` rendered as `f"{i}. {x}"` lines. -/
def enumLines : Nat → List String → List String
  | _, [] => []
  | i, x :: xs => (toString i ++ ". " ++ x) :: enumLines (i + 1) xs

/-- Title and metadata block of `plan_markdown`. -/
def headerLinesMD (m : PlanModel) : List String :=
  ["# Project Management Plan",
   "",
   "**Project/Outcome:** " ++ (if m.outcome = "" then "TBD" else m.outcome),
   "**Methodology:** " ++ m.methodology ++ "  ",
   "**Industry:** " ++ m.industry ++ "  ",
   "**Risk Appetite:** " ++ m.risk_appetite,
   "",
   "---"]

/-- Section 1 of `plan_markdown`. -/
def objectivesLinesMD (m : PlanModel) : List String :=
  "## 1. Objectives" ::
    ((if m.objectives = [] then ["_No objectives captured yet_"]
      else enumLines 1 m.objectives)
      ++ [""])

/-- Section 2 of `plan_markdown` (the scope summary is stripped first). -/
def scopeLinesMD (m : PlanModel) : List String :=
  "## 2. Scope Summary" ::
    ((if pyStrip m.scope_summary = "" then
        ["Summarize in-scope and out-of-scope items, key deliverables, and assumptions."]
      else [pyStrip m.scope_summary])
      ++ [""])

/-- The RACI subsection of `plan_markdown`, present only when
`include_raci` is set: heading, hand-written header and separator lines,
one line per row, and a placeholder when there are no rows. -/
def raciLinesMD (m : PlanModel) : List String :=
  if m.include_raci then
    ["### 3.2 RACI (Indicative)",
     "| Deliverable/Activity | R | A | C | I |",
     "|---|---|---|---|---|"]
    ++ m.raci_rows.map (fun row => mdRow [row.Item, row.R, row.A, row.C, row.I])
    ++ (if m.raci_rows = [] then
          ["_Add RACI entries in the app to include them here._"]
        else [])
  else []

/-- Section 3 of `plan_markdown`. -/
def governanceLinesMD (m : PlanModel) : List String :=
  "## 3. Governance" ::
    (["**Governance cadence:** " ++ m.gov_cadence ++ "  ",
      "**Escalation path:** " ++ m.gov_escalation,
      "",
      "### 3.1 Roles & Decision Rights"]
      ++ (if m.governance_roles = [] then ["_No governance roles captured yet_"]
          else mdTableLines ["Role", "Name", "Decision Rights"]
            (m.governance_roles.map (fun r => [r.Role, r.Name, r.DecisionRights])))
      ++ [""]
      ++ raciLinesMD m
      ++ [""])

/-- Section 4 of `plan_markdown`: the risk table, sorted by descending
risk score, displaying only the five label columns. -/
def risksLinesMD (m : PlanModel) : List String :=
  "## 4. Risks & Mitigations" ::
    ((if m.risks = [] then ["_No risks captured yet_"]
      else mdTableLines ["Risk", "Probability", "Impact", "Mitigation", "Owner"]
        ((sortRisksDesc m.risks).map riskCells))
      ++ [""])

/-- Section 5 of `plan_markdown`. -/
def milestonesLinesMD (m : PlanModel) : List String :=
  "## 5. Milestones & Timeline" ::
    ((if m.milestones = [] then
        ["_Add key milestones, dates, and acceptance criteria._"]
      else mdTableLines ["Milestone", "Date", "Acceptance Criteria"]
        (m.milestones.map (fun x => [x.Milestone, x.Date, x.AcceptanceCriteria])))
      ++ [""])

/-- Section 6 of `plan_markdown`. -/
def commsLinesMD (m : PlanModel) : List String :=
  "## 6. Stakeholders & Communications" ::
    ((if m.comms = [] then
        ["_Define stakeholders, information needs, channels, frequency, and owner._"]
      else mdTableLines ["Stakeholder", "Information Needs", "Channel", "Frequency", "Owner"]
        (m.comms.map (fun c =>
          [c.Stakeholder, c.InformationNeeds, c.Channel, c.Frequency, c.Owner])))
      ++ [""])

/-- Section 7 of `plan_markdown`. -/
def successLinesMD (m : PlanModel) : List String :=
  "## 7. Success Measures" ::
    ((if m.success_measures = [] then
        ["_Define measurable KPIs and acceptance criteria._"]
      else enumLines 1 m.success_measures)
      ++ [""])

/-- The full line list accumulated by `plan_markdown`. -/
def planMarkdownLines (m : PlanModel) : List String :=
  headerLinesMD m ++ objectivesLinesMD m ++ scopeLinesMD m ++ governanceLinesMD m
    ++ risksLinesMD m ++ milestonesLinesMD m ++ commsLinesMD m ++ successLinesMD m

/-- `plan_markdown` from `app.py`: the joined line list. -/
def plan_markdown (m : PlanModel) : String :=
  String.intercalate "\n" (planMarkdownLines m)

/-- An abstract item of the DOCX document built by `plan_docx`.  Character
formatting (bold runs, font sizes, centering, list styling) is abstracted
away; the runs of a paragraph are concatenated into one text. -/
inductive DocxItem where
  | title : String → DocxItem
  | para : String → DocxItem
  | heading : String → DocxItem
  | bullet : String → DocxItem
  | table : List String → List (List String) → DocxItem
deriving DecidableEq

/-- Title and metadata paragraphs of `plan_docx`. -/
def docxHeaderItems (m : PlanModel) : List DocxItem :=
  [DocxItem.title "Project Management Plan",
   DocxItem.para "",
   DocxItem.para ("Project/Outcome: " ++ (if m.outcome = "" then "TBD" else m.outcome)),
   DocxItem.para ("Methodology: " ++ m.methodology),
   DocxItem.para ("Industry: " ++ m.industry),
   DocxItem.para ("Risk Appetite: " ++ m.risk_appetite),
   DocxItem.para ""]

/-- Section 1 of `plan_docx`. -/
def docxObjectivesItems (m : PlanModel) : List DocxItem :=
  DocxItem.heading "1. Objectives" ::
    (if m.objectives = [] then
      [DocxItem.para "Define objectives aligned to the outcome and KPIs."]
    else m.objectives.map DocxItem.bullet)

/-- Section 2 of `plan_docx`. -/
def docxScopeItems (m : PlanModel) : List DocxItem :=
  [DocxItem.heading "2. Scope Summary",
   DocxItem.para (if pyStrip m.scope_summary = "" then
      "Summarize in-scope, out-of-scope, deliverables, and assumptions."
    else pyStrip m.scope_summary)]

/-- The RACI subsection of `plan_docx`, present only when `include_raci`
is set: bold paragraph, then either a 5-column table or a placeholder. -/
def raciItemsDocx (m : PlanModel) : List DocxItem :=
  if m.include_raci then
    DocxItem.para "3.2 RACI (Indicative)" ::
      (if m.raci_rows = [] then
        [DocxItem.para "Add RACI entries in the app to include them here."]
      else
        [DocxItem.table ["Deliverable/Activity", "R", "A", "C", "I"]
          (m.raci_rows.map (fun row => [row.Item, row.R, row.A, row.C, row.I]))])
  else []

/-- Section 3 of `plan_docx`. -/
def docxGovernanceItems (m : PlanModel) : List DocxItem :=
  [DocxItem.heading "3. Governance",
   DocxItem.para ("Governance cadence: " ++ m.gov_cadence),
   DocxItem.para ("Escalation path: " ++ m.gov_escalation),
   DocxItem.para "3.1 Roles & Decision Rights"]
  ++ (if m.governance_roles = [] then
        [DocxItem.para "No governance roles defined."]
      else
        [DocxItem.table ["Role", "Name", "Decision Rights"]
          (m.governance_roles.map (fun r => [r.Role, r.Name, r.DecisionRights]))])
  ++ raciItemsDocx m

/-- Section 4 of `plan_docx`: the same descending risk-score sort and the
same five displayed columns as the Markdown renderer. -/
def docxRisksItems (m : PlanModel) : List DocxItem :=
  DocxItem.heading "4. Risks & Mitigations" ::
    (if m.risks = [] then [DocxItem.para "No risks captured yet."]
    else
      [DocxItem.table ["Risk", "Probability", "Impact", "Mitigation", "Owner"]
        ((sortRisksDesc m.risks).map riskCells)])

/-- Section 5 of `plan_docx`. -/
def docxMilestonesItems (m : PlanModel) : List DocxItem :=
  DocxItem.heading "5. Milestones & Timeline" ::
    (if m.milestones = [] then
      [DocxItem.para "Add key milestones, dates, and acceptance criteria."]
    else
      [DocxItem.table ["Milestone", "Target Date", "Acceptance Criteria"]
        (m.milestones.map (fun x => [x.Milestone, x.Date, x.AcceptanceCriteria]))])

/-- Section 6 of `plan_docx`. -/
def docxCommsItems (m : PlanModel) : List DocxItem :=
  DocxItem.heading "6. Stakeholders & Communications" ::
    (if m.comms = [] then
      [DocxItem.para "Define stakeholders, information needs, channel, frequency, and owner."]
    else
      [DocxItem.table ["Stakeholder/Group", "Information Needs", "Channel", "Frequency", "Owner"]
        (m.comms.map (fun c =>
          [c.Stakeholder, c.InformationNeeds, c.Channel, c.Frequency, c.Owner]))])

/-- Section 7 of `plan_docx`. -/
def docxSuccessItems (m : PlanModel) : List DocxItem :=
  DocxItem.heading "7. Success Measures" ::
    (if m.success_measures = [] then
      [DocxItem.para "Define measurable KPIs and acceptance criteria."]
    else m.success_measures.map DocxItem.bullet)

/-- `plan_docx` from `app.py`, abstracted to the sequence of document
items it adds (the byte serialization done by the docx library is outside
the model). -/
def plan_docx (m : PlanModel) : List DocxItem :=
  docxHeaderItems m ++ docxObjectivesItems m ++ docxScopeItems m
    ++ docxGovernanceItems m ++ docxRisksItems m ++ docxMilestonesItems m
    ++ docxCommsItems m ++ docxSuccessItems m

/-- The section-heading texts of a DOCX item list, in order. -/
def docxHeadings : List DocxItem → List String
  | [] => []
  | DocxItem.heading t :: rest => t :: docxHeadings rest
  | _ :: rest => docxHeadings rest

/-- The bullet texts of a DOCX item list, in order. -/
def docxBulletTexts : List DocxItem → List String
  | [] => []
  | DocxItem.bullet t :: rest => t :: docxBulletTexts rest
  | _ :: rest => docxBulletTexts rest

/-- Every piece of text carried by a DOCX item (paragraph and heading
texts, table header and data cells). -/
def docxItemTexts : DocxItem → List String
  | DocxItem.title t => [t]
  | DocxItem.para t => [t]
  | DocxItem.heading t => [t]
  | DocxItem.bullet t => [t]
  | DocxItem.table header rows => header ++ rows.foldr (· ++ ·) []

/-- All texts of a DOCX item list. -/
def docxAllTexts (items : List DocxItem) : List String :=
  items.foldr (fun i acc => docxItemTexts i ++ acc) []

lemma sortRisksDesc_perm (l : List RiskRow) : (sortRisksDesc l).Perm l := by
  unfold sortRisksDesc
  exact ((List.reverse_perm _).trans
    (List.perm_insertionSort riskLE l.reverse)).trans (List.reverse_perm l)

/-- The completely empty plan model: all collections empty, all text
fields blank, RACI excluded. -/
def emptyPlanModel : PlanModel :=
  { outcome := "", methodology := "", industry := "", risk_appetite := "",
    objectives := [], scope_summary := "", governance_roles := [],
    gov_cadence := "", gov_escalation := "", include_raci := false,
    raci_rows := [], risks := [], milestones := [], comms := [],
    success_measures := [] }

/-- First risk of the C1 example: probability High, impact Medium, score 6. -/
def exampleRisk1 : RiskRow :=
  { Risk := "risk1", Probability := "High", Impact := "Medium",
    Mitigation := "mit1", Owner := "own1" }

/-- Second risk of the C1 example: probability Low, impact Medium, score 2. -/
def exampleRisk2 : RiskRow :=
  { Risk := "risk2", Probability := "Low", Impact := "Medium",
    Mitigation := "mit2", Owner := "own2" }

/-- Third risk of the C1 example: probability Medium, impact High, score 6. -/
def exampleRisk3 : RiskRow :=
  { Risk := "risk3", Probability := "Medium", Impact := "High",
    Mitigation := "mit3", Owner := "own3" }

/-- A model holding the three C1 example risks, scores [6, 2, 6], in entry
order. -/
def exampleRiskModel : PlanModel :=
  { emptyPlanModel with risks := [exampleRisk1, exampleRisk2, exampleRisk3] }

/-- A reachable 17-row risk register in which every row is tied: the 16
suggested risks for the default industry/methodology (Information
Technology / Software, Hybrid), each added through the add-risk button of
the Risks tab — which fills in `Probability = "Medium"`,
`Impact = "Medium"`, empty mitigation and owner — plus one hand-typed row
with the same defaults.  Every row scores 2 × 2 = 4. -/
def bigTiedRegister : List RiskRow :=
  (suggest_risks "Information Technology / Software" "Hybrid").map
    (fun r => { Risk := r, Probability := "Medium", Impact := "Medium",
                Mitigation := "", Owner := "" })
  ++ [{ Risk := "Custom risk entered by hand", Probability := "Medium",
        Impact := "Medium", Mitigation := "", Owner := "" }]

/-- C1 (evidence for the code bug): `bigTiedRegister` has 17 rows, all
tied at risk score 4, and on it the claimed stable tie-break — for every
score value, the rendered rows filtered by that score equal the original
sublist — forces the rendered row order to be exactly the entry order.
The program sorts with pandas' default `kind="quicksort"`; numpy's
introsort reorders tied keys on inputs of 16 or more elements, so the
program does not return the entry order on this register, violating the
claimed (and specified) stability.  Registers below 16 rows are
insertion-sorted and do behave as claimed: the [6, 2, 6] example renders
risk1, risk3, risk2. -/
theorem risk_sort_tie_break_code_bug :
    bigTiedRegister.length = 17
    ∧ (∀ r ∈ bigTiedRegister, riskScore r = 4)
    ∧ (∀ rows : List RiskRow,
        (∀ k : Nat, rows.filter (fun r => riskScore r == k)
            = bigTiedRegister.filter (fun r => riskScore r == k)) →
        rows = bigTiedRegister)
    ∧ sortRisksDesc [exampleRisk1, exampleRisk2, exampleRisk3]
        = [exampleRisk1, exampleRisk3, exampleRisk2]
    ∧ risksLinesMD exampleRiskModel =
        ["## 4. Risks & Mitigations",
         "| Risk | Probability | Impact | Mitigation | Owner |",
         "|---|---|---|---|---|",
         "| risk1 | High | Medium | mit1 | own1 |",
         "| risk3 | Medium | High | mit3 | own3 |",
         "| risk2 | Low | Medium | mit2 | own2 |",
         ""] := by
  have hall4 : ∀ r ∈ bigTiedRegister, riskScore r = 4 := by decide
  refine ⟨by decide, hall4, ?_, by decide, by decide⟩
  intro rows h
  have hrows4 : ∀ r ∈ rows, riskScore r = 4 := by
    intro r hr
    by_contra hne
    have hmem : r ∈ rows.filter (fun x => riskScore x == riskScore r) :=
      List.mem_filter.mpr ⟨hr, by simp⟩
    rw [h (riskScore r)] at hmem
    exact hne (hall4 r (List.mem_filter.mp hmem).1)
  have hself : rows.filter (fun r => riskScore r == 4) = rows :=
    List.filter_eq_self.mpr (fun a ha => by simp [hrows4 a ha])
  rw [← hself, h 4]
  decide

/-- Witness for C1's code-bug theorem, discharging the filter hypothesis
at the tied register itself. -/
theorem risk_sort_tie_break_code_bug_witness :
    (∀ k : Nat, bigTiedRegister.filter (fun r => riskScore r == k)
        = bigTiedRegister.filter (fun r => riskScore r == k))
    ∧ bigTiedRegister = bigTiedRegister :=
  ⟨fun _ => rfl,
   risk_sort_tie_break_code_bug.2.2.1 bigTiedRegister (fun _ => rfl)⟩


/-- C7: rendering the empty model produces each of the seven per-section
placeholder lines exactly once, the seven placeholders are pairwise
distinct, and the RACI subsection is entirely absent. -/
theorem empty_model_placeholders :
    (planMarkdownLines emptyPlanModel).count "_No objectives captured yet_" = 1
    ∧ (planMarkdownLines emptyPlanModel).count
        "Summarize in-scope and out-of-scope items, key deliverables, and assumptions." = 1
    ∧ (planMarkdownLines emptyPlanModel).count "_No governance roles captured yet_" = 1
    ∧ (planMarkdownLines emptyPlanModel).count "_No risks captured yet_" = 1
    ∧ (planMarkdownLines emptyPlanModel).count
        "_Add key milestones, dates, and acceptance criteria._" = 1
    ∧ (planMarkdownLines emptyPlanModel).count
        "_Define stakeholders, information needs, channels, frequency, and owner._" = 1
    ∧ (planMarkdownLines emptyPlanModel).count
        "_Define measurable KPIs and acceptance criteria._" = 1
    ∧ List.Nodup
        ["_No objectives captured yet_",
         "Summarize in-scope and out-of-scope items, key deliverables, and assumptions.",
         "_No governance roles captured yet_",
         "_No risks captured yet_",
         "_Add key milestones, dates, and acceptance criteria._",
         "_Define stakeholders, information needs, channels, frequency, and owner._",
         "_Define measurable KPIs and acceptance criteria._"]
    ∧ raciLinesMD emptyPlanModel = [] := by
  decide

/-- The empty model with the RACI flag switched on (and still no RACI
rows). -/
def raciOnModel : PlanModel :=
  { emptyPlanModel with include_raci := true }

/-- C8: in both renderers the RACI subsection is controlled solely by the
`include_raci` flag: flag set with no rows gives the heading followed by
the distinct placeholder; flag clear removes the subsection entirely,
whatever `raci_rows` holds. -/
theorem raci_gated_by_flag :
    ∀ m : PlanModel,
      (m.include_raci = true → m.raci_rows = [] →
        raciLinesMD m =
          ["### 3.2 RACI (Indicative)",
           "| Deliverable/Activity | R | A | C | I |",
           "|---|---|---|---|---|",
           "_Add RACI entries in the app to include them here._"]
        ∧ raciItemsDocx m =
          [DocxItem.para "3.2 RACI (Indicative)",
           DocxItem.para "Add RACI entries in the app to include them here."])
      ∧ (m.include_raci = false →
        raciLinesMD m = [] ∧ raciItemsDocx m = []) := by
  intro m
  constructor
  · intro hflag hrows
    unfold raciLinesMD raciItemsDocx
    rw [hflag, hrows]
    simp
  · intro hflag
    unfold raciLinesMD raciItemsDocx
    rw [hflag]
    simp

/-- Witness for C8: flag on with empty rows, and the flag-off empty model. -/
theorem raci_gated_by_flag_witness :
    (raciLinesMD raciOnModel =
        ["### 3.2 RACI (Indicative)",
         "| Deliverable/Activity | R | A | C | I |",
         "|---|---|---|---|---|",
         "_Add RACI entries in the app to include them here._"]
      ∧ raciItemsDocx raciOnModel =
        [DocxItem.para "3.2 RACI (Indicative)",
         DocxItem.para "Add RACI entries in the app to include them here."])
    ∧ (raciLinesMD emptyPlanModel = [] ∧ raciItemsDocx emptyPlanModel = []) :=
  ⟨(raci_gated_by_flag raciOnModel).1 rfl rfl,
   (raci_gated_by_flag emptyPlanModel).2 rfl⟩

/-- C9: for a non-empty risk list the Markdown risk table consists of the
header row with exactly the columns Risk, Probability, Impact, Mitigation,
Owner, the separator, and one row per risk projecting only those five
fields; the computed scores only determine the order (the rendered rows
are a permutation of the input risks). -/
theorem risk_table_columns :
    ∀ m : PlanModel, m.risks ≠ [] →
      risksLinesMD m =
        "## 4. Risks & Mitigations" ::
          mdRow ["Risk", "Probability", "Impact", "Mitigation", "Owner"] ::
          mdSep 5 ::
          ((sortRisksDesc m.risks).map (fun r =>
            mdRow [r.Risk, r.Probability, r.Impact, r.Mitigation, r.Owner]) ++ [""])
      ∧ (sortRisksDesc m.risks).Perm m.risks := by
  intro m h
  refine ⟨?_, sortRisksDesc_perm m.risks⟩
  unfold risksLinesMD mdTableLines
  rw [if_neg h]
  simp [riskCells]

/-- Witness for C9 at the three-risk example model. -/
theorem risk_table_columns_witness :
    exampleRiskModel.risks ≠ []
    ∧ (risksLinesMD exampleRiskModel =
        "## 4. Risks & Mitigations" ::
          mdRow ["Risk", "Probability", "Impact", "Mitigation", "Owner"] ::
          mdSep 5 ::
          ((sortRisksDesc exampleRiskModel.risks).map (fun r =>
            mdRow [r.Risk, r.Probability, r.Impact, r.Mitigation, r.Owner]) ++ [""])
      ∧ (sortRisksDesc exampleRiskModel.risks).Perm exampleRiskModel.risks) :=
  ⟨by decide, risk_table_columns exampleRiskModel (by decide)⟩

/-- C10: the two label-scoring functions are extensionally equal. -/
theorem p_and_i_label_scores_agree :
    ∀ s : String, p_label_to_score s = i_label_to_score s := by
  intro s; rfl

/-- C5: both scoring functions are total, map Low to 1, Medium to 2 and
High to 3, and return the neutral score 2 on every other input, the empty
string included. -/
theorem label_scores_total :
    (∀ s : String, s ≠ "Low" → s ≠ "Medium" → s ≠ "High" →
      p_label_to_score s = 2 ∧ i_label_to_score s = 2)
    ∧ (∀ s : String,
        (p_label_to_score s = 1 ∨ p_label_to_score s = 2 ∨ p_label_to_score s = 3)
        ∧ (i_label_to_score s = 1 ∨ i_label_to_score s = 2 ∨ i_label_to_score s = 3))
    ∧ p_label_to_score "Low" = 1 ∧ p_label_to_score "Medium" = 2
    ∧ p_label_to_score "High" = 3 ∧ p_label_to_score "" = 2
    ∧ i_label_to_score "Low" = 1 ∧ i_label_to_score "Medium" = 2
    ∧ i_label_to_score "High" = 3 ∧ i_label_to_score "" = 2 := by
  refine ⟨?_, ?_, by decide, by decide, by decide, by decide,
    by decide, by decide, by decide, by decide⟩
  · intro s h1 h2 h3
    exact ⟨by simp [p_label_to_score, h1, h2, h3],
      by simp [i_label_to_score, h1, h2, h3]⟩
  · intro s
    constructor
    · unfold p_label_to_score
      split_ifs <;> simp
    · unfold i_label_to_score
      split_ifs <;> simp

/-- Witness for C5 at the unrecognized label "Banana". -/
theorem label_scores_total_witness :
    ("Banana" : String) ≠ "Low" ∧ ("Banana" : String) ≠ "Medium"
    ∧ ("Banana" : String) ≠ "High"
    ∧ p_label_to_score "Banana" = 2 ∧ i_label_to_score "Banana" = 2 := by
  refine ⟨by decide, by decide, by decide, ?_⟩
  exact label_scores_total.1 "Banana" (by decide) (by decide) (by decide)

/-- C6: a blank or whitespace-only outcome yields no suggestions at all. -/
theorem suggest_objectives_blank_outcome :
    ∀ (outcome methodology : String) (drivers : List String),
      pyStrip outcome = "" →
      suggest_objectives outcome methodology drivers = [] := by
  intro outcome methodology drivers h
  unfold suggest_objectives
  rw [if_pos h]

/-- Witness for C6 at a whitespace-only outcome. -/
theorem suggest_objectives_blank_outcome_witness :
    pyStrip "   " = ""
    ∧ suggest_objectives "   " "Agile" ["Cost/Budget Control"] = [] := by
  refine ⟨by decide, ?_⟩
  exact suggest_objectives_blank_outcome "   " "Agile" ["Cost/Budget Control"] (by decide)

/-- C4: for a non-blank outcome the suggestions are, in fixed rule order,
the trimmed-outcome restatement, the KPI prompt, one methodology-dependent
delivery line (Agile wording exactly when the methodology is `"Agile"`),
then at most one line per keyword trigger (risk; cost or budget; speed or
time; quality; compliance) scanned case-insensitively over the
space-joined drivers; the example call yields exactly 5 entries in that
order. -/
theorem suggest_objectives_fixed_order :
    (∀ (outcome methodology : String) (drivers : List String),
      pyStrip outcome ≠ "" →
      suggest_objectives outcome methodology drivers =
        ["Deliver the defined outcome: " ++ pyStrip outcome,
         "Define measurable KPIs and acceptance criteria aligned to business value",
         (if methodology = "Agile" then
            "Deliver scope in agreed increments with clear Definition of Done"
          else
            "Deliver scope by phase with approved entry/exit criteria")]
        ++ (if hasKw "risk" drivers then
              ["Reduce high-priority delivery risks with proactive mitigations and fast feedback"]
            else [])
        ++ (if hasKw "cost" drivers ∨ hasKw "budget" drivers then
              ["Control total cost within the approved budget envelope"]
            else [])
        ++ (if hasKw "speed" drivers ∨ hasKw "time" drivers then
              ["Meet or accelerate the target timeline through critical path focus"]
            else [])
        ++ (if hasKw "quality" drivers then
              ["Achieve quality targets measured by defect rates and user satisfaction"]
            else [])
        ++ (if hasKw "compliance" drivers then
              ["Comply with applicable regulatory and policy requirements with evidence"]
            else []))
    ∧ suggest_objectives "Launch a portal" "Agile" ["reduce risk and cost"] =
        ["Deliver the defined outcome: Launch a portal",
         "Define measurable KPIs and acceptance criteria aligned to business value",
         "Deliver scope in agreed increments with clear Definition of Done",
         "Reduce high-priority delivery risks with proactive mitigations and fast feedback",
         "Control total cost within the approved budget envelope"]
    ∧ (suggest_objectives "Launch a portal" "Agile" ["reduce risk and cost"]).length = 5 := by
  refine ⟨?_, by decide, by decide⟩
  intro outcome methodology drivers h
  unfold suggest_objectives
  rw [if_neg h]

/-- Witness for C4 at a concrete non-blank outcome with no drivers. -/
theorem suggest_objectives_fixed_order_witness :
    pyStrip "Go live" ≠ ""
    ∧ suggest_objectives "Go live" "Hybrid" [] =
        ["Deliver the defined outcome: Go live",
         "Define measurable KPIs and acceptance criteria aligned to business value",
         "Deliver scope by phase with approved entry/exit criteria"] := by
  refine ⟨by decide, ?_⟩
  rw [suggest_objectives_fixed_order.1 "Go live" "Hybrid" [] (by decide)]
  decide

lemma docxHeadings_append (a b : List DocxItem) :
    docxHeadings (a ++ b) = docxHeadings a ++ docxHeadings b := by
  induction a with
  | nil => rfl
  | cons x xs ih => cases x <;> simp [docxHeadings, ih]

lemma docxBulletTexts_append (a b : List DocxItem) :
    docxBulletTexts (a ++ b) = docxBulletTexts a ++ docxBulletTexts b := by
  induction a with
  | nil => rfl
  | cons x xs ih => cases x <;> simp [docxBulletTexts, ih]

lemma docxHeadings_map_bullet (l : List String) :
    docxHeadings (l.map DocxItem.bullet) = [] := by
  induction l with
  | nil => rfl
  | cons x xs ih => simp [docxHeadings, ih]

lemma docxBulletTexts_map_bullet (l : List String) :
    docxBulletTexts (l.map DocxItem.bullet) = l := by
  induction l with
  | nil => rfl
  | cons x xs ih => simp [docxBulletTexts, ih]

lemma docxHeadings_raci (m : PlanModel) : docxHeadings (raciItemsDocx m) = [] := by
  unfold raciItemsDocx
  split
  · split <;> rfl
  · rfl

lemma docxBulletTexts_raci (m : PlanModel) : docxBulletTexts (raciItemsDocx m) = [] := by
  unfold raciItemsDocx
  split
  · split <;> rfl
  · rfl

lemma docxHeadings_sections (m : PlanModel) :
    docxHeadings (docxHeaderItems m) = []
    ∧ docxHeadings (docxObjectivesItems m) = ["1. Objectives"]
    ∧ docxHeadings (docxScopeItems m) = ["2. Scope Summary"]
    ∧ docxHeadings (docxGovernanceItems m) = ["3. Governance"]
    ∧ docxHeadings (docxRisksItems m) = ["4. Risks & Mitigations"]
    ∧ docxHeadings (docxMilestonesItems m) = ["5. Milestones & Timeline"]
    ∧ docxHeadings (docxCommsItems m) = ["6. Stakeholders & Communications"]
    ∧ docxHeadings (docxSuccessItems m) = ["7. Success Measures"] := by
  refine ⟨rfl, ?_, rfl, ?_, ?_, ?_, ?_, ?_⟩
  · unfold docxObjectivesItems
    split <;> simp [docxHeadings, docxHeadings_map_bullet]
  · unfold docxGovernanceItems
    rw [docxHeadings_append, docxHeadings_append, docxHeadings_raci]
    split <;> rfl
  · unfold docxRisksItems
    split <;> rfl
  · unfold docxMilestonesItems
    split <;> rfl
  · unfold docxCommsItems
    split <;> rfl
  · unfold docxSuccessItems
    split <;> simp [docxHeadings, docxHeadings_map_bullet]

lemma docxBulletTexts_sections (m : PlanModel) :
    docxBulletTexts (docxHeaderItems m) = []
    ∧ docxBulletTexts (docxObjectivesItems m)
        = (if m.objectives = [] then [] else m.objectives)
    ∧ docxBulletTexts (docxScopeItems m) = []
    ∧ docxBulletTexts (docxGovernanceItems m) = []
    ∧ docxBulletTexts (docxRisksItems m) = []
    ∧ docxBulletTexts (docxMilestonesItems m) = []
    ∧ docxBulletTexts (docxCommsItems m) = []
    ∧ docxBulletTexts (docxSuccessItems m)
        = (if m.success_measures = [] then [] else m.success_measures) := by
  refine ⟨rfl, ?_, rfl, ?_, ?_, ?_, ?_, ?_⟩
  · unfold docxObjectivesItems
    split <;> simp [docxBulletTexts, docxBulletTexts_map_bullet]
  · unfold docxGovernanceItems
    rw [docxBulletTexts_append, docxBulletTexts_append, docxBulletTexts_raci]
    split <;> rfl
  · unfold docxRisksItems
    split <;> rfl
  · unfold docxMilestonesItems
    split <;> rfl
  · unfold docxCommsItems
    split <;> rfl
  · unfold docxSuccessItems
    split <;> simp [docxBulletTexts, docxBulletTexts_map_bullet]

lemma sublist_append_pre {α : Type} (pre : List α) {l big : List α}
    (h : List.Sublist l big) : List.Sublist l (pre ++ big) :=
  h.trans (List.sublist_append_right pre big)

/-- C2 counterexample: at the empty model the Markdown objectives
placeholder and the DOCX objectives placeholder are different sentences;
the Markdown placeholder text occurs nowhere in the DOCX output (with or
without the emphasis markers) and the DOCX placeholder occurs nowhere in
the Markdown output, so the two renderers are not
placeholder-for-placeholder identical modulo formatting syntax. -/
theorem markdown_docx_placeholder_mismatch :
    "_No objectives captured yet_" ∈ planMarkdownLines emptyPlanModel
    ∧ DocxItem.para "Define objectives aligned to the outcome and KPIs."
        ∈ plan_docx emptyPlanModel
    ∧ "No objectives captured yet" ∉ docxAllTexts (plan_docx emptyPlanModel)
    ∧ "_No objectives captured yet_" ∉ docxAllTexts (plan_docx emptyPlanModel)
    ∧ "Define objectives aligned to the outcome and KPIs."
        ∉ planMarkdownLines emptyPlanModel := by
  decide

/-- C2 as amended: the DOCX renderer mirrors the Markdown renderer's
section structure and populated content — the seven numbered section
headings appear in the same order in both outputs, the DOCX bullet texts
are exactly the model's objectives followed by its success measures, and
a non-empty risk list yields in the DOCX output the very same sorted
five-column rows the Markdown table shows — while empty-section
placeholder wording (and some table-header labels) differ between the two
renderers. -/
theorem markdown_docx_structure_mirror :
    ∀ m : PlanModel,
      docxHeadings (plan_docx m) =
        ["1. Objectives", "2. Scope Summary", "3. Governance",
         "4. Risks & Mitigations", "5. Milestones & Timeline",
         "6. Stakeholders & Communications", "7. Success Measures"]
      ∧ List.Sublist
          ["## 1. Objectives", "## 2. Scope Summary", "## 3. Governance",
           "## 4. Risks & Mitigations", "## 5. Milestones & Timeline",
           "## 6. Stakeholders & Communications", "## 7. Success Measures"]
          (planMarkdownLines m)
      ∧ docxBulletTexts (plan_docx m) =
          (if m.objectives = [] then [] else m.objectives)
          ++ (if m.success_measures = [] then [] else m.success_measures)
      ∧ (m.risks ≠ [] →
          DocxItem.table ["Risk", "Probability", "Impact", "Mitigation", "Owner"]
            ((sortRisksDesc m.risks).map riskCells) ∈ plan_docx m) := by
  intro m
  obtain ⟨h1, h2, h3, h4, h5, h6, h7, h8⟩ := docxHeadings_sections m
  obtain ⟨b1, b2, b3, b4, b5, b6, b7, b8⟩ := docxBulletTexts_sections m
  refine ⟨?_, ?_, ?_, ?_⟩
  · unfold plan_docx
    rw [docxHeadings_append, docxHeadings_append, docxHeadings_append,
      docxHeadings_append, docxHeadings_append, docxHeadings_append,
      docxHeadings_append, h1, h2, h3, h4, h5, h6, h7, h8]
    rfl
  · simp only [planMarkdownLines, headerLinesMD, objectivesLinesMD,
      scopeLinesMD, governanceLinesMD, risksLinesMD, milestonesLinesMD,
      commsLinesMD, successLinesMD, List.append_assoc, List.cons_append,
      List.singleton_append, List.nil_append]
    apply List.Sublist.cons
    apply List.Sublist.cons
    apply List.Sublist.cons
    apply List.Sublist.cons
    apply List.Sublist.cons
    apply List.Sublist.cons
    apply List.Sublist.cons
    apply List.Sublist.cons
    apply List.Sublist.cons₂
    apply sublist_append_pre
    apply List.Sublist.cons
    apply List.Sublist.cons₂
    apply sublist_append_pre
    apply List.Sublist.cons
    apply List.Sublist.cons₂
    apply List.Sublist.cons
    apply List.Sublist.cons
    apply List.Sublist.cons
    apply List.Sublist.cons
    apply sublist_append_pre
    apply List.Sublist.cons
    apply sublist_append_pre
    apply List.Sublist.cons
    apply List.Sublist.cons₂
    apply sublist_append_pre
    apply List.Sublist.cons
    apply List.Sublist.cons₂
    apply sublist_append_pre
    apply List.Sublist.cons
    apply List.Sublist.cons₂
    apply sublist_append_pre
    apply List.Sublist.cons
    apply List.Sublist.cons₂
    exact List.nil_sublist _
  · unfold plan_docx
    rw [docxBulletTexts_append, docxBulletTexts_append, docxBulletTexts_append,
      docxBulletTexts_append, docxBulletTexts_append, docxBulletTexts_append,
      docxBulletTexts_append, b1, b2, b3, b4, b5, b6, b7, b8]
    simp
  · intro h
    have hmem : DocxItem.table ["Risk", "Probability", "Impact", "Mitigation", "Owner"]
        ((sortRisksDesc m.risks).map riskCells) ∈ docxRisksItems m := by
      simp [docxRisksItems, h]
    unfold plan_docx
    simp only [List.mem_append]
    tauto

/-- Witness for C2 as amended, at the three-risk example model. -/
theorem markdown_docx_structure_mirror_witness :
    exampleRiskModel.risks ≠ []
    ∧ DocxItem.table ["Risk", "Probability", "Impact", "Mitigation", "Owner"]
        ((sortRisksDesc exampleRiskModel.risks).map riskCells)
        ∈ plan_docx exampleRiskModel
    ∧ docxHeadings (plan_docx exampleRiskModel) =
        ["1. Objectives", "2. Scope Summary", "3. Governance",
         "4. Risks & Mitigations", "5. Milestones & Timeline",
         "6. Stakeholders & Communications", "7. Success Measures"] :=
  ⟨by decide,
   (markdown_docx_structure_mirror exampleRiskModel).2.2.2 (by decide),
   (markdown_docx_structure_mirror exampleRiskModel).1⟩
